import Mathlib

/-!
# Verification of the note-minds mind-map view (`src/components/MindMapView.tsx`)

Shallow embedding of the data model and operations of the mind-map
("decomposition tree") component: the viewport controller (`MindMapView`,
its `handleGenerate` flow and zoom controls), the per-node render state of
`MindMapNode` (expand/collapse, info popup, outside-click listener), and
the connector geometry computed per child slot.

Machine reals (the `zoom` factor) are modelled as rationals; the only
operations performed on zoom in the source are `+ 0.1`, `- 0.1`,
`Math.min`/`Math.max` clamping and assignment of the literal `1`, all of
which are exact.
-/

namespace NoteMinds

/-- A source record, from `src/types.ts` (`interface Source`). -/
structure Source where
  id : String
  title : String
  content : String
  /-- `'text' | 'file'`, kept as a string field. -/
  sourceType : String
  color : String
deriving DecidableEq, Repr

/-- The tree produced by the external generator, from `src/types.ts`
(`interface MindMapData`): a label, an optional description and an
optional ordered list of child subtrees. -/
inductive MindMapData where
  | mk (label : String) (description : Option String)
      (children : Option (List MindMapData))
deriving Repr

/-- Field accessor for the label. -/
def MindMapData.label : MindMapData → String
  | .mk l _ _ => l

/-- Field accessor for the optional child list. -/
def MindMapData.children : MindMapData → Option (List MindMapData)
  | .mk _ _ c => c

/-- The child list with an absent field read as empty (the source only
reads `children` behind the `hasChildren` test below, where absent and
empty behave identically). -/
def MindMapData.childList (d : MindMapData) : List MindMapData :=
  d.children.getD []

/-- `const hasChildren = data.children && data.children.length > 0`
(MindMapView.tsx line 35), as a boolean: true iff the `children` field is
present and non-empty. -/
def hasChildren (d : MindMapData) : Bool :=
  match d.children with
  | none => false
  | some l => decide (0 < l.length)

/-! ## Viewport controller (`MindMapView`)

The controller state is the tuple of `useState` hooks of `MindMapView`
(lines 184-188): `selectedSourceId`, `isLoading`, `mindMapData`, `error`,
`zoom`. -/

/-- The controller state of `MindMapView` (lines 184-188). -/
structure ViewportState where
  selectedSourceId : String
  isLoading : Bool
  mindMapData : Option MindMapData
  error : Option String
  zoom : ℚ

/-- The initial controller state: `''`, `false`, `null`, `null`, `1`. -/
def initialViewport : ViewportState :=
  { selectedSourceId := "", isLoading := false, mindMapData := none,
    error := none, zoom := 1 }

/-- The spec's status abstraction of the controller state
(`Idle | Loading | Ready(tree) | Failed(message)`). -/
inductive Status where
  | Idle
  | Loading
  | Ready (tree : MindMapData)
  | Failed (message : String)

/-- Read the spec-level status off the concrete state: the loading flag
dominates (the loading overlay covers the canvas, lines 275-280), then an
error renders the failure message (lines 282-286), then a present tree
renders it (lines 310-317), else the idle placeholder (lines 288-293). -/
def status (s : ViewportState) : Status :=
  if s.isLoading then .Loading
  else
    match s.error with
    | some m => .Failed m
    | none =>
      match s.mindMapData with
      | some t => .Ready t
      | none => .Idle

/-- The user-facing failure message set in the `catch` branch
(line 215). -/
def failureMessage : String := "Failed to generate mind map. Please try again."

/-- The whitespace class of ECMAScript's `TrimString` (JavaScript's
`String.prototype.trim`): the `WhiteSpace` code points — TAB, VT, FF,
ZWNBSP and every Space_Separator (U+0020, U+00A0, U+1680,
U+2000–U+200A, U+202F, U+205F, U+3000) — together with the
`LineTerminator` code points LF, CR, U+2028 and U+2029. -/
def isJsWhitespace (c : Char) : Bool :=
  c == ' ' || c == '\t' || c == '\n' || c == '\r' || c == '\x0b' || c == '\x0c'
    || c == '\u00A0' || c == '\uFEFF' || c == '\u1680'
    || ('\u2000' ≤ c && c ≤ '\u200A')
    || c == '\u2028' || c == '\u2029'
    || c == '\u202F' || c == '\u205F' || c == '\u3000'

/-- Drop leading whitespace characters. -/
def dropLeadingWs : List Char → List Char
  | [] => []
  | c :: cs => if isJsWhitespace c then dropLeadingWs cs else c :: cs

/-- JavaScript's `String.prototype.trim`: the string with leading and
trailing whitespace removed. -/
def jsTrim (s : String) : String :=
  ⟨dropLeadingWs (dropLeadingWs s.data.reverse).reverse⟩

/-- Content resolution inside `handleGenerate` (lines 194-201):
`'all'` joins every source's content with `'\n\n'`; otherwise
`sources.find(s => s.id === selectedSourceId)` supplies the content,
and a missing match leaves the initial `''`. -/
def resolveContent (sources : List Source) (selectedSourceId : String) : String :=
  if selectedSourceId == "all" then
    String.intercalate "\n\n" (sources.map (·.content))
  else
    match sources.find? (fun src => src.id == selectedSourceId) with
    | some src => src.content
    | none => ""

/-- The synchronous phase of `handleGenerate` (lines 191-208): the two
guard returns (`if (!selectedSourceId) return` — the empty string is the
only falsy string — and `if (!contentToAnalyze.trim()) return`), then the
four state updates issued before the `await`
(`setIsLoading(true); setError(null); setMindMapData(null); setZoom(1)`).
Returns the state after this phase together with whether the generator
request is issued (`true` exactly when control reaches the `await` of
line 211). -/
def handleGenerateStart (sources : List Source) (s : ViewportState) :
    ViewportState × Bool :=
  if s.selectedSourceId == "" then (s, false)
  else
    let contentToAnalyze := resolveContent sources s.selectedSourceId
    if jsTrim contentToAnalyze == "" then (s, false)
    else
      ({ s with isLoading := true, error := none, mindMapData := none,
                zoom := 1 }, true)

/-- The resumption of `handleGenerate` after the generator settles
(lines 210-218): on fulfilment `setMindMapData(data)`, on rejection
`setError(failureMessage)` (the tree is not touched in the `catch`), and
in both cases the `finally` runs `setIsLoading(false)`. The generator's
outcome is passed in as an oracle value. -/
def handleGenerateResume (outcome : Except String MindMapData)
    (s : ViewportState) : ViewportState :=
  match outcome with
  | .ok data => { s with mindMapData := some data, isLoading := false }
  | .error _ =>
      { s with error := some failureMessage, isLoading := false }

/-- The whole `handleGenerate` call with a given generator outcome: the
synchronous phase, then, when a request was issued, the resumption.
The second component counts generator invocations. -/
def handleGenerate (sources : List Source) (outcome : Except String MindMapData)
    (s : ViewportState) : ViewportState × Nat :=
  let (s₁, issued) := handleGenerateStart sources s
  if issued then (handleGenerateResume outcome s₁, 1) else (s₁, 0)

/-- The `disabled` condition of the Generate button (line 261):
`!selectedSourceId || isLoading`. -/
def generateButtonDisabled (s : ViewportState) : Bool :=
  s.selectedSourceId == "" || s.isLoading

/-! ## Zoom controls (lines 296-308)

The three zoom buttons run `setZoom(z => Math.min(z + 0.1, 2))`,
`setZoom(z => Math.max(z - 0.1, 0.5))` and `setZoom(1)`. -/

/-- One press of a zoom control. -/
inductive ZoomOp where
  | zoomIn
  | zoomOut
  | reset
deriving DecidableEq, Repr

/-- The updater each control applies to the current zoom (lines 298,
301, 304). -/
def applyZoom (z : ℚ) : ZoomOp → ℚ
  | .zoomIn => min (z + 1/10) 2
  | .zoomOut => max (z - 1/10) (1/2)
  | .reset => 1

/-- The zoom after a sequence of control presses, starting from the
default `useState(1)` (line 188). -/
def runZoom (ops : List ZoomOp) : ℚ :=
  ops.foldl applyZoom 1

/-! ## Connector geometry (`MindMapNode`, lines 114-166)

Each child slot at index `idx` among `K` siblings renders a connector
block; which line segments the block contains is decided solely by the
booleans `isFirst = (idx == 0)`, `isLast = (idx == K-1)`,
`isOnly = (K == 1)` computed on lines 115-117. -/

/-- The set of segments a child slot's connector block renders, one
boolean per conditionally rendered `div` of lines 126-166. -/
structure Connector where
  /-- Line 128: the short horizontal branch to the child, always drawn. -/
  horizontalToChild : Bool
  /-- Lines 134-136: upper half of the vertical spine (`!isOnly && !isFirst`). -/
  upperSpine : Bool
  /-- Lines 138-140: lower half of the vertical spine (`!isOnly && !isLast`). -/
  lowerSpine : Bool
  /-- Lines 144-146: the first child's corner curve. -/
  firstCorner : Bool
  /-- Lines 148-152: the last child's flat stub. -/
  lastStub : Bool
  /-- Lines 153-155: the last child's corner curve. -/
  lastCorner : Bool
  /-- Lines 158-160: the middle child's horizontal connection to the spine. -/
  middleStub : Bool
  /-- Lines 163-165: the full-width horizontal line of an only child. -/
  fullHorizontal : Bool
deriving DecidableEq, Repr

/-- The connector block for the child at `idx` among `K` siblings
(lines 114-166): a function of index and sibling count only. -/
def connectorFor (idx K : Nat) : Connector :=
  let isFirst := idx == 0
  let isLast := idx == K - 1
  let isOnly := K == 1
  { horizontalToChild := true
    upperSpine := !isOnly && !isFirst
    lowerSpine := !isOnly && !isLast
    firstCorner := !isOnly && isFirst
    lastStub := !isOnly && isLast
    lastCorner := !isOnly && isLast
    middleStub := !isOnly && (!isFirst && !isLast)
    fullHorizontal := isOnly }

/-- The connector descriptors produced for a children list: the map of
lines 114-119 restricted to the connector block, one descriptor per
child, in order. -/
def childConnectors (children : List MindMapData) : List Connector :=
  (List.range children.length).map (fun idx => connectorFor idx children.length)

/-- The spec's structural role of a child among its siblings
(only/first/middle/last), read off the same index/count case split the
rendering uses: `isOnly`, else `isFirst`, else `isLast`, else middle. -/
inductive Role where
  | only
  | first
  | middle
  | last
deriving DecidableEq, Repr

/-- Role classification of the child at `idx` among `K` siblings. -/
def connectorRole (idx K : Nat) : Role :=
  if K == 1 then .only
  else if idx == 0 then .first
  else if idx == K - 1 then .last
  else .middle

/-! ## Per-node render state (`MindMapNode`, lines 16-17, 87-104)

Each mounted `MindMapNode` owns `isExpanded` (`useState(true)`) and
`showInfo` (`useState(false)`). The children section is rendered — and
its `MindMapNode` instances mounted — exactly when
`hasChildren && isExpanded` (line 104); a conditionally rendered React
subtree is unmounted when its condition turns false, and hooks of an
unmounted instance are discarded, so a remount starts from the
`useState` defaults again. -/

/-- The render state of one mounted `MindMapNode` instance together with
the states of its mounted children (empty while collapsed or childless). -/
structure RNode where
  isExpanded : Bool
  showInfo : Bool
  kids : List RNode
deriving Repr

/-- Freshly mount a `MindMapNode` for `d`: both `useState` hooks at
their defaults (`true`, `false`), and — since the default is expanded —
the children section mounted whenever `children` is present (a present
empty list maps to no instances, as does an absent one). -/
def mount : MindMapData → RNode
  | .mk _ _ none => ⟨true, false, []⟩
  | .mk _ _ (some l) => ⟨true, false, l.attach.map (fun c => mount c.1)⟩
termination_by d => sizeOf d
decreasing_by
  simp_wf
  have := List.sizeOf_lt_of_mem c.2
  omega

/-- A render state is at the defaults everywhere: expanded and
popup-closed at this node and at every mounted descendant. -/
def RNode.allDefault : RNode → Bool
  | ⟨e, s, kids⟩ => e && !s && kids.attach.all (fun k => k.1.allDefault)
termination_by n => sizeOf n
decreasing_by
  simp_wf
  have := List.sizeOf_lt_of_mem k.2
  omega

/-- One press of the expand/collapse toggle of the node rendering `d`
(lines 87-100): the button is rendered only when `hasChildren`, so the
press is a no-op otherwise; collapsing turns the render condition of
line 104 false, unmounting the whole child subtree; expanding turns it
true again, mounting every child afresh. -/
def toggleExpand (d : MindMapData) (n : RNode) : RNode :=
  if hasChildren d then
    if n.isExpanded then ⟨false, n.showInfo, []⟩
    else ⟨true, n.showInfo, d.childList.map mount⟩
  else n

/-! ## Popup outside-click listener (`MindMapNode`, lines 21-33)

The effect has dependency list `[showInfo]`: its body adds a `mousedown`
listener on `document` when `showInfo` is true; its cleanup removes the
listener. React runs the body after mount, runs cleanup-then-body
whenever the dependency changed, and runs cleanup at unmount. The
handler (lines 22-26) closes the popup when the event target is outside
`nodeRef`. -/

/-- The observable state of one node's popup system: whether the node is
mounted, its `showInfo` hook, and whether its `mousedown` listener is
currently registered on the document. -/
structure PopupSys where
  mounted : Bool
  showInfo : Bool
  registered : Bool
deriving DecidableEq, Repr

/-- The effect body (lines 27-29): register the listener iff `showInfo`. -/
def effectRun (s : PopupSys) : PopupSys :=
  if s.showInfo then { s with registered := true } else s

/-- The effect cleanup (lines 30-32): remove the listener
(`removeEventListener` of an unregistered handler is a no-op). -/
def effectCleanup (s : PopupSys) : PopupSys :=
  { s with registered := false }

/-- `setShowInfo b` and its render consequences: a same-value update is
a React bail-out; a changed value re-renders, and because the effect's
dependency `[showInfo]` changed, the previous effect's cleanup runs and
then the body runs with the new value. -/
def setShowInfoEvent (b : Bool) (s : PopupSys) : PopupSys :=
  if b == s.showInfo then s
  else effectRun (effectCleanup { s with showInfo := b })

/-- The events that can reach one node's popup system. -/
inductive PEvent where
  /-- The info button (line 59): `setShowInfo(!showInfo)`. -/
  | toggleInfo
  /-- The popup's close button (line 73): `setShowInfo(false)`. -/
  | closeInfo
  /-- A `mousedown` anywhere in the document; the flag records whether
  the target is inside `nodeRef`. The node's handler runs only while
  registered, and closes the popup when the target is outside
  (lines 22-26). -/
  | pointerDown (insideNode : Bool)
  /-- The node is unmounted: React runs the effect cleanup. -/
  | unmountNode
deriving DecidableEq, Repr

/-- One event step of the popup system; events no longer reach an
unmounted node (its buttons are gone and its listener was removed). -/
def popupStep (s : PopupSys) (e : PEvent) : PopupSys :=
  if s.mounted then
    match e with
    | .toggleInfo => setShowInfoEvent (!s.showInfo) s
    | .closeInfo => setShowInfoEvent false s
    | .pointerDown inside =>
        if s.registered && !inside then setShowInfoEvent false s else s
    | .unmountNode => effectCleanup { s with mounted := false }
  else s

/-- The popup system right after the node mounts: `useState(false)` for
`showInfo`, then the effect body runs (and registers nothing, as the
popup is closed). -/
def popupMount : PopupSys :=
  effectRun { mounted := true, showInfo := false, registered := false }

/-- The popup system after a sequence of events from mount. -/
def popupRun (evs : List PEvent) : PopupSys :=
  evs.foldl popupStep popupMount

/-! ## Spec-side refinement definitions and concrete fixtures -/

/-- Modelled from the spec's words for the `"all"` case: "concatenate
every source's content with a blank-line separator in source list
order" — contents joined with exactly one `"\n\n"` between neighbours. -/
def specBlankLineJoin : List String → String
  | [] => ""
  | [c] => c
  | c :: rest => c ++ "\n\n" ++ specBlankLineJoin rest

/-- A one-source fixture. -/
def demoSources : List Source :=
  [{ id := "a", title := "Doc A", content := "hello world",
     sourceType := "text", color := "#fff" }]

/-- A controller state that is mid-generation (`status = Loading`) with
a valid selection and a non-default zoom. -/
def loadingState : ViewportState :=
  { selectedSourceId := "a", isLoading := true, mindMapData := none,
    error := none, zoom := 3/2 }

/-- An idle controller state with source `"a"` selected. -/
def idleSelectedState : ViewportState :=
  { selectedSourceId := "a", isLoading := false, mindMapData := none,
    error := none, zoom := 1 }

/-- A one-node tree, result of the first (superseded) request. -/
def treeA : MindMapData := .mk "A" none none

/-- A one-node tree, result of the second (latest) request. -/
def treeB : MindMapData := .mk "B" none none

/-- The controller state after issuing a first request from
`idleSelectedState`. -/
def interleaved1 : ViewportState :=
  (handleGenerateStart demoSources idleSelectedState).1

/-- ... then issuing a second request while the first is outstanding
(nothing in `handleGenerateStart` prevents it). -/
def interleaved2 : ViewportState :=
  (handleGenerateStart demoSources interleaved1).1

/-- ... then the second request's response `treeB` resolves and is
applied. -/
def interleaved3 : ViewportState :=
  handleGenerateResume (.ok treeB) interleaved2

/-- ... then the first request's response `treeA` — superseded by the
second call — resolves and is applied as well. -/
def interleaved4 : ViewportState :=
  handleGenerateResume (.ok treeA) interleaved3

/-- A two-level tree fixture: a root with one child. -/
def demoTree : MindMapData := .mk "root" none (some [.mk "kid" none none])

/-- The scoping invariant of the popup's document listener: it is
registered exactly while the node is mounted with its popup open. -/
def popupInv (s : PopupSys) : Prop :=
  s.registered = (s.mounted && s.showInfo)

instance (s : PopupSys) : Decidable (popupInv s) :=
  inferInstanceAs (Decidable (s.registered = (s.mounted && s.showInfo)))

/-! ## Helper lemmas -/

/-- One zoom control press keeps the zoom inside `[1/2, 2]`. -/
theorem applyZoom_bounds (z : ℚ) (op : ZoomOp) (h1 : 1/2 ≤ z) (h2 : z ≤ 2) :
    1/2 ≤ applyZoom z op ∧ applyZoom z op ≤ 2 := by
  cases op with
  | zoomIn =>
      exact ⟨le_min (by linarith) (by norm_num), min_le_right _ _⟩
  | zoomOut =>
      exact ⟨le_max_right _ _, max_le (by linarith) (by norm_num)⟩
  | reset => exact ⟨by norm_num [applyZoom], by norm_num [applyZoom]⟩

/-- Folding zoom presses from a zoom inside `[1/2, 2]` stays inside. -/
theorem foldl_applyZoom_bounds (ops : List ZoomOp) : ∀ z : ℚ, 1/2 ≤ z → z ≤ 2 →
    1/2 ≤ ops.foldl applyZoom z ∧ ops.foldl applyZoom z ≤ 2 := by
  induction ops with
  | nil => exact fun z h1 h2 => ⟨h1, h2⟩
  | cons op t ih =>
      intro z h1 h2
      obtain ⟨a, b⟩ := applyZoom_bounds z op h1 h2
      simpa using ih (applyZoom z op) a b

/-- `String.intercalate.go` accumulates the blank-line join. -/
theorem intercalate_go_spec (as : List String) : ∀ acc : String,
    String.intercalate.go acc "\n\n" as = specBlankLineJoin (acc :: as) := by
  induction as with
  | nil => exact fun _ => rfl
  | cons a t ih =>
      intro acc
      rw [String.intercalate.go, ih (acc ++ "\n\n" ++ a)]
      cases t with
      | nil => rfl
      | cons b bs => simp [specBlankLineJoin, String.append_assoc]

/-- `String.intercalate "\n\n"` is exactly the spec's blank-line join. -/
theorem intercalate_eq_specBlankLineJoin :
    ∀ l : List String, String.intercalate "\n\n" l = specBlankLineJoin l
  | [] => rfl
  | a :: as => intercalate_go_spec as a

/-- `List.find?` returns the unique element satisfying the id test. -/
theorem find_id_unique (key : String) (src : Source) : ∀ l : List Source,
    src ∈ l → src.id = key → (∀ t ∈ l, t.id = key → t = src) →
    l.find? (fun s => s.id == key) = some src := by
  intro l
  induction l with
  | nil => intro h; cases h
  | cons a t ih =>
      intro hmem hid huniq
      by_cases ha : a.id = key
      · have : a = src := huniq a (List.mem_cons_self a t) ha
        subst this
        simp [List.find?_cons, ha]
      · have hne : src ≠ a := fun h => ha (h ▸ hid)
        have hmem' : src ∈ t := by
          rcases List.mem_cons.mp hmem with h | h
          · exact absurd h hne
          · exact h
        have hfind : (a.id == key) = false := by simpa using ha
        rw [List.find?_cons, hfind]
        exact ih hmem' hid (fun u hu hku => huniq u (List.mem_cons_of_mem a hu) hku)

/-- `hasChildren` is present-and-non-empty of the child list. -/
theorem hasChildren_iff_childList_ne_nil (e : MindMapData) :
    hasChildren e = true ↔ e.childList ≠ [] := by
  obtain ⟨_, _, c⟩ := e
  cases c with
  | none => simp [hasChildren, MindMapData.childList, MindMapData.children]
  | some l =>
      simp [hasChildren, MindMapData.childList, MindMapData.children,
        List.length_pos, Option.getD]

/-- A freshly mounted node and all its mounted descendants are at the
defaults. -/
theorem mount_allDefault (d : MindMapData) : (mount d).allDefault = true := by
  induction d using mount.induct with
  | case1 l desc => simp [mount, RNode.allDefault]
  | case2 l desc cs ih =>
      simp only [mount, RNode.allDefault]
      simp only [List.all_eq_true, List.mem_attach, Bool.and_eq_true, true_and,
        forall_true_left]
      refine ⟨rfl, ?_⟩
      intro x
      obtain ⟨y, hy⟩ := x
      simp only [List.mem_map, List.mem_attach] at hy
      obtain ⟨z, _, hz⟩ := hy
      subst hz
      exact ih z

/-- A popup-system step preserves the listener-scoping invariant. -/
theorem popupStep_inv (s : PopupSys) (e : PEvent) (h : popupInv s) :
    popupInv (popupStep s e) := by
  obtain ⟨m, si, r⟩ := s
  revert h
  match e with
  | .toggleInfo => cases m <;> cases si <;> cases r <;> decide
  | .closeInfo => cases m <;> cases si <;> cases r <;> decide
  | .pointerDown inside =>
      cases inside <;> cases m <;> cases si <;> cases r <;> decide
  | .unmountNode => cases m <;> cases si <;> cases r <;> decide

/-- The listener-scoping invariant holds along every event trace. -/
theorem popupRun_inv (evs : List PEvent) : popupInv (popupRun evs) := by
  have aux : ∀ (l : List PEvent) (s : PopupSys), popupInv s →
      popupInv (l.foldl popupStep s) := by
    intro l
    induction l with
    | nil => exact fun s h => h
    | cons e t ih => exact fun s h => ih (popupStep s e) (popupStep_inv s e h)
  exact aux evs popupMount (by decide)

/-- While mounted with the popup open (hence registered), an outside
press closes the popup and unregisters the listener. -/
theorem popupStep_outside_closes (s : PopupSys) (h : popupInv s)
    (hm : s.mounted = true) (hsi : s.showInfo = true) :
    (popupStep s (.pointerDown false)).showInfo = false
    ∧ (popupStep s (.pointerDown false)).registered = false := by
  obtain ⟨m, si, r⟩ := s
  revert h hm hsi
  cases m <;> cases si <;> cases r <;> decide

/-- Under the invariant, the close control and unmount both leave the
listener unregistered. -/
theorem popupStep_exit_unregisters (s : PopupSys) (h : popupInv s) :
    (popupStep s .closeInfo).registered = false
    ∧ (popupStep s .unmountNode).registered = false := by
  obtain ⟨m, si, r⟩ := s
  revert h
  cases m <;> cases si <;> cases r <;> decide

/-! ## Claim theorems -/

/-- C8: starting from the default zoom 1, any sequence of zoom-control
presses keeps the zoom within `[0.5, 2]` — repeated increases never
exceed 2, repeated decreases never go below 0.5 — and the reset control
yields exactly 1 after any history and from any zoom value. -/
theorem zoom_clamped_and_reset_exact (ops : List ZoomOp) :
    (1/2 ≤ runZoom ops ∧ runZoom ops ≤ 2)
    ∧ runZoom (ops ++ [ZoomOp.reset]) = 1
    ∧ (∀ z : ℚ, applyZoom z .reset = 1) := by
  refine ⟨foldl_applyZoom_bounds ops 1 (by norm_num) (by norm_num), ?_, fun z => rfl⟩
  rw [runZoom, List.foldl_append]
  rfl

/-- C6: for a sibling group of size `K ≥ 1` the role of the child at
`idx` is a total function of `(idx, K)`: it is `only` iff `K = 1`; for
`K ≥ 2` exactly index 0 is `first`, exactly index `K-1` is `last`, and
the rest are `middle`; the children list yields exactly `K` connector
descriptors, and two children lists of equal length yield identical
descriptors (independence of label content). -/
theorem connector_role_assignment (K idx : Nat) (hK : 1 ≤ K) (hidx : idx < K) :
    (connectorRole idx K = .only ↔ K = 1)
    ∧ (2 ≤ K →
        ((connectorRole idx K = .first ↔ idx = 0)
        ∧ (connectorRole idx K = .last ↔ idx = K - 1)
        ∧ (connectorRole idx K = .middle ↔ (idx ≠ 0 ∧ idx ≠ K - 1))))
    ∧ (∀ children : List MindMapData,
        (childConnectors children).length = children.length)
    ∧ (∀ c₁ c₂ : List MindMapData, c₁.length = c₂.length →
        childConnectors c₁ = childConnectors c₂) := by
  refine ⟨?_, fun h2 => ⟨?_, ?_, ?_⟩, fun c => by simp [childConnectors],
    fun c₁ c₂ h => by simp [childConnectors, h]⟩ <;>
    simp only [connectorRole, beq_iff_eq] <;>
    split_ifs <;> simp_all <;> omega

/-- C7: the vertical spine segments a child's connector block renders
are determined by its role: an only child renders just horizontal
segments and no spine; the first of several renders only the downward
half; the last only the upward half; a middle child renders both. -/
theorem connector_segments_by_role (K idx : Nat) (hidx : idx < K) :
    (connectorRole idx K = .only →
        connectorFor idx K =
          { horizontalToChild := true, upperSpine := false, lowerSpine := false,
            firstCorner := false, lastStub := false, lastCorner := false,
            middleStub := false, fullHorizontal := true })
    ∧ (connectorRole idx K = .first →
        (connectorFor idx K).upperSpine = false
        ∧ (connectorFor idx K).lowerSpine = true)
    ∧ (connectorRole idx K = .last →
        (connectorFor idx K).upperSpine = true
        ∧ (connectorFor idx K).lowerSpine = false)
    ∧ (connectorRole idx K = .middle →
        (connectorFor idx K).upperSpine = true
        ∧ (connectorFor idx K).lowerSpine = true) := by
  refine ⟨?_, ?_, ?_, ?_⟩ <;>
    simp only [connectorRole, connectorFor, beq_iff_eq] <;>
    split_ifs <;> intro hrole <;> simp_all <;> omega

/-- Witness for C6 at `K = 2`, `idx = 0`: the first of two children is
classified `first`. -/
theorem connector_role_assignment_witness :
    connectorRole 0 2 = Role.first :=
  (((connector_role_assignment 2 0 (by decide) (by decide)).2.1
    (by decide)).1).mpr rfl

/-- Witness for C7 at `K = 1`, `idx = 0`: an only child's block is the
straight horizontal with no spine. -/
theorem connector_segments_by_role_witness :
    connectorFor 0 1 =
      { horizontalToChild := true, upperSpine := false, lowerSpine := false,
        firstCorner := false, lastStub := false, lastCorner := false,
        middleStub := false, fullHorizontal := true } :=
  (connector_segments_by_role 1 0 (by decide)).1 rfl

/-- C3: `generate()` resolves the analysis content from the selected
key — `"all"` concatenates every source's content in list order with
exactly one blank line between neighbours (so contents `"X"`, `"Y"`
resolve to `"X\n\nY"`); any other key resolves to exactly the content of
the single source whose id matches. -/
theorem resolve_content_correct (sources : List Source) (key : String)
    (src : Source) (hkey : key ≠ "all") (hmem : src ∈ sources)
    (hid : src.id = key) (huniq : ∀ t ∈ sources, t.id = key → t = src) :
    resolveContent sources "all" = specBlankLineJoin (sources.map (·.content))
    ∧ resolveContent sources key = src.content
    ∧ resolveContent
        [{ id := "1", title := "S1", content := "X", sourceType := "text",
           color := "c" },
         { id := "2", title := "S2", content := "Y", sourceType := "text",
           color := "c" }] "all" = "X\n\nY" := by
  refine ⟨?_, ?_, by decide⟩
  · rw [resolveContent]
    simp only [beq_self_eq_true, if_true]
    exact intercalate_eq_specBlankLineJoin _
  · rw [resolveContent]
    have hk : (key == "all") = false := by simpa using hkey
    rw [if_neg (by simp [hk])]
    rw [find_id_unique key src sources hmem hid huniq]

/-- Witness for C3 at the one-source fixture with key `"a"`. -/
theorem resolve_content_correct_witness :
    resolveContent demoSources "a" = "hello world" :=
  (resolve_content_correct demoSources "a"
    { id := "a", title := "Doc A", content := "hello world",
      sourceType := "text", color := "#fff" }
    (by decide) (by decide) (by decide) (by decide)).2.1

/-- C4: a `generate()` call with the selected key unset (empty string)
or with empty/whitespace-only resolved content is an exact no-op: the
state is returned unchanged and no generator request is made. -/
theorem generate_noop_on_invalid (sources : List Source)
    (outcome : Except String MindMapData) (s : ViewportState)
    (h : s.selectedSourceId = ""
      ∨ jsTrim (resolveContent sources s.selectedSourceId) = "") :
    handleGenerateStart sources s = (s, false)
    ∧ handleGenerate sources outcome s = (s, 0) := by
  have hstart : handleGenerateStart sources s = (s, false) := by
    rcases h with h | h
    · simp [handleGenerateStart, h]
    · by_cases hsel : s.selectedSourceId = ""
      · simp [handleGenerateStart, hsel]
      · simp [handleGenerateStart, hsel, h]
  exact ⟨hstart, by simp [handleGenerate, hstart]⟩

/-- Witness for C4 at the initial state, whose selected key is `""`. -/
theorem generate_noop_on_invalid_witness :
    handleGenerate demoSources (.ok treeA) initialViewport
      = (initialViewport, 0) :=
  (generate_noop_on_invalid demoSources (.ok treeA) initialViewport
    (Or.inl rfl)).2

/-- C5: a `generate()` call with a selected key and non-blank resolved
content transitions to `Loading` with zoom reset to exactly 1 and prior
tree and error cleared, invokes the generator exactly once, and ends
`Ready(tree)` when the generator fulfils or `Failed(message)` when it
rejects. -/
theorem generate_flow (sources : List Source)
    (outcome : Except String MindMapData) (s : ViewportState)
    (hsel : s.selectedSourceId ≠ "")
    (hcontent : jsTrim (resolveContent sources s.selectedSourceId) ≠ "") :
    (handleGenerateStart sources s).2 = true
    ∧ status (handleGenerateStart sources s).1 = .Loading
    ∧ (handleGenerateStart sources s).1.zoom = 1
    ∧ (handleGenerateStart sources s).1.mindMapData = none
    ∧ (handleGenerateStart sources s).1.error = none
    ∧ (handleGenerate sources outcome s).2 = 1
    ∧ (∀ t, outcome = .ok t →
        status (handleGenerate sources outcome s).1 = .Ready t)
    ∧ (∀ e, outcome = .error e →
        status (handleGenerate sources outcome s).1 = .Failed failureMessage) := by
  have hstart : handleGenerateStart sources s
      = ({ s with
            isLoading := true, error := none, mindMapData := none,
            zoom := 1 }, true) := by
    simp [handleGenerateStart, hsel, hcontent]
  refine ⟨by rw [hstart], by rw [hstart]; rfl, by rw [hstart], by rw [hstart],
    by rw [hstart], by simp [handleGenerate, hstart], ?_, ?_⟩
  · intro t ht
    subst ht
    simp [handleGenerate, hstart, handleGenerateResume, status]
  · intro e he
    subst he
    simp [handleGenerate, hstart, handleGenerateResume, status]

/-- Witness for C5: generating from the one-source fixture with a
fulfilled generator reaches `Ready` with the produced tree. -/
theorem generate_flow_witness :
    status (handleGenerate demoSources (.ok treeA) idleSelectedState).1
      = .Ready treeA :=
  (generate_flow demoSources (.ok treeA) idleSelectedState (by decide)
    (by decide)).2.2.2.2.2.2.1 treeA rfl

/-- C1 counterexample: from a `Loading` state with a valid selection,
calling `handleGenerate` is not a no-op — the synchronous phase issues a
generator request and mutates the state (the zoom is reset from 3/2
to 1): the controller itself has no `Loading` guard. -/
theorem loading_call_not_rejected :
    status loadingState = .Loading
    ∧ (handleGenerateStart demoSources loadingState).2 = true
    ∧ (handleGenerateStart demoSources loadingState).1.zoom = 1
    ∧ loadingState.zoom ≠ 1 :=
  ⟨rfl, by decide, by decide, by norm_num [loadingState]⟩

/-- C1 amended: during `Loading` only the UI rejects a second
`generate()` — the Generate button's `disabled` condition holds — while
the controller function itself never consults `isLoading`: whether a
request is issued is the same for every value of `isLoading` and is
decided solely by the selected key and the resolved content. -/
theorem loading_guard_is_ui_only (sources : List Source) (s : ViewportState)
    (b : Bool) (hload : s.isLoading = true) :
    generateButtonDisabled s = true
    ∧ (handleGenerateStart sources { s with isLoading := b }).2
        = (handleGenerateStart sources s).2
    ∧ (handleGenerateStart sources s).2
        = (!(s.selectedSourceId == "")
            && !(jsTrim (resolveContent sources s.selectedSourceId) == "")) := by
  refine ⟨by simp [generateButtonDisabled, hload], ?_, ?_⟩ <;>
    simp only [handleGenerateStart] <;> split_ifs <;> simp_all

/-- Witness for the amended C1 at the `Loading` fixture: the button is
disabled, yet the synchronous phase would still issue a request. -/
theorem loading_guard_is_ui_only_witness :
    generateButtonDisabled loadingState = true
    ∧ (handleGenerateStart demoSources loadingState).2
        = (!(loadingState.selectedSourceId == "")
            && !(jsTrim (resolveContent demoSources
                  loadingState.selectedSourceId) == "")) :=
  ⟨(loading_guard_is_ui_only demoSources loadingState false rfl).1,
   (loading_guard_is_ui_only demoSources loadingState false rfl).2.2⟩

/-- C2 counterexample: two back-to-back `generate()` calls are both
issued; the second (latest) call's response `treeB` is applied first,
then the first call's response `treeA` — superseded by the second call —
resolves later and is applied as well, overwriting `treeB`: no
sequence-number guard discards it. -/
theorem superseded_response_applied :
    (handleGenerateStart demoSources idleSelectedState).2 = true
    ∧ (handleGenerateStart demoSources interleaved1).2 = true
    ∧ interleaved3.mindMapData = some treeB
    ∧ interleaved4.mindMapData = some treeA :=
  ⟨by decide, by decide, rfl, rfl⟩

/-- C2 amended: `generate()` calls carry no sequence number, and the
resumption applies whatever response resolves, unconditionally: a
fulfilled response always lands in `mindMapData` (and clears the loading
flag), a rejected one always sets the failure message, and of two
resolutions the one resolving last wins regardless of issue order. -/
theorem response_applied_unconditionally (s : ViewportState)
    (t t' : MindMapData) (e : String) :
    (handleGenerateResume (.ok t) s).mindMapData = some t
    ∧ (handleGenerateResume (.ok t) s).isLoading = false
    ∧ (handleGenerateResume (.error e) s).error = some failureMessage
    ∧ (handleGenerateResume (.ok t')
        (handleGenerateResume (.ok t) s)).mindMapData = some t' :=
  ⟨rfl, rfl, rfl, rfl⟩

/-- C9: the expand/collapse toggle exists exactly when the children
list is non-empty; a mounted node (and every mounted descendant) starts
expanded with the popup closed; collapsing unmounts the entire child
subtree, and re-expanding remounts every child at the defaults,
whatever render state — open popups included — the previous child
instances carried. -/
theorem expand_collapse_lifecycle (d : MindMapData) (si : Bool)
    (kids' : List RNode) (hc : hasChildren d = true) :
    (∀ e : MindMapData, hasChildren e = true ↔ e.childList ≠ [])
    ∧ (mount d).isExpanded = true ∧ (mount d).showInfo = false
    ∧ (mount d).allDefault = true
    ∧ toggleExpand d ⟨true, si, kids'⟩ = ⟨false, si, []⟩
    ∧ toggleExpand d (toggleExpand d ⟨true, si, kids'⟩)
        = ⟨true, si, d.childList.map mount⟩
    ∧ (d.childList.map mount).all RNode.allDefault = true
    ∧ (∀ (e : MindMapData) (n : RNode), hasChildren e = false →
        toggleExpand e n = n) := by
  obtain ⟨lab, desc, c⟩ := d
  refine ⟨hasChildren_iff_childList_ne_nil, ?_, ?_, mount_allDefault _,
    by simp [toggleExpand, hc], by simp [toggleExpand, hc], ?_,
    fun e n he => by simp [toggleExpand, he]⟩
  · cases c <;> simp [mount]
  · cases c <;> simp [mount]
  · simp only [List.all_eq_true, List.mem_map]
    rintro x ⟨y, _, rfl⟩
    exact mount_allDefault y

/-- Witness for C9: collapsing the two-level fixture while its child's
popup is open, then re-expanding, yields the child at the defaults. -/
theorem expand_collapse_lifecycle_witness :
    toggleExpand demoTree (toggleExpand demoTree ⟨true, false, [⟨true, true, []⟩]⟩)
      = ⟨true, false, [⟨true, false, []⟩]⟩ := by
  have h := (expand_collapse_lifecycle demoTree false [⟨true, true, []⟩]
    (by decide)).2.2.2.2.2.1
  simpa [demoTree, MindMapData.childList, MindMapData.children, mount] using h

/-- C10: along every event trace from mount, the document `mousedown`
listener is registered exactly while the node is mounted with its popup
open; while the popup is open, a press outside the node closes it (and
unregisters the listener); and after the close control or an unmount —
on any trace, popup open or not — the listener is never left
registered. -/
theorem popup_listener_scoped (evs : List PEvent) :
    (popupRun evs).registered
      = ((popupRun evs).mounted && (popupRun evs).showInfo)
    ∧ ((popupRun evs).mounted = true → (popupRun evs).showInfo = true →
        (popupStep (popupRun evs) (.pointerDown false)).showInfo = false
        ∧ (popupStep (popupRun evs) (.pointerDown false)).registered = false)
    ∧ (popupRun (evs ++ [PEvent.closeInfo])).registered = false
    ∧ (popupRun (evs ++ [PEvent.unmountNode])).registered = false := by
  refine ⟨popupRun_inv evs, fun hm hsi =>
    popupStep_outside_closes _ (popupRun_inv evs) hm hsi, ?_, ?_⟩
  · rw [popupRun, List.foldl_append]
    exact (popupStep_exit_unregisters _ (popupRun_inv evs)).1
  · rw [popupRun, List.foldl_append]
    exact (popupStep_exit_unregisters _ (popupRun_inv evs)).2

/-- Witness for C10 on the trace that opens the popup: the listener is
then registered, and an outside press closes the popup. -/
theorem popup_listener_scoped_witness :
    (popupRun [PEvent.toggleInfo]).registered = true
    ∧ (popupStep (popupRun [PEvent.toggleInfo]) (.pointerDown false)).showInfo
        = false :=
  ⟨by decide, ((popup_listener_scoped [PEvent.toggleInfo]).2.1 rfl rfl).1⟩

end NoteMinds
